import Mathlib

/-!
Verification of the particle log post-processing pipeline
(`get_particle_attributes.py`, `logfile_processor.py`, `config.py`).

Log lines are modelled as `List Char`.  The regular-expression searches of
the source are modelled by explicit leftmost-scan functions: every pattern
used by the source (`KEY: \d+`, `VECTOR: X=[-.\d]+ Y=[-.\d]+ Z=[-.\d]+`,
`VELOCITY: [-.\d]+`, `XS(\d+)`, `Y=([-\d.]+)`, `Z=([-\d.]+)`) consists of
literals alternating with greedy character-class runs, and each literal that
follows a run starts with a character outside the class, so a leftmost scan
taking maximal runs, with no backtracking, is an exact model of `re.search`.
`\d` is modelled as the ASCII digits (the log is an ASCII file).  Numeric
values are modelled as exact rationals; Python `round(x, n)` is modelled as
round-half-to-even at the n-th decimal.  Python exceptions are modelled by
`Except PyErr`; the three constructors record the raise site.
-/

/-- Characters matched by the character class `[-.\d]` (equivalently `[-\d.]`). -/
def isNumC (c : Char) : Bool := c = '-' || c = '.' || c.isDigit

/-- Value of a digit string, as `int()` computes it on a `\d+` capture. -/
def natOfDigits (ds : List Char) : ℕ :=
  ds.foldl (fun a c => 10 * a + (c.toNat - ('0').toNat)) 0

/-- Python `float()` on a string drawn from the characters `-`, `.` and digits:
succeeds exactly when the string is an optional leading sign followed by a
digit string with at most one decimal point and at least one digit; any other
shape (for example `"-"`, `"."`, `"1-2"`, `"1.2.3"`) raises `ValueError`,
modelled as `none`. -/
def pyFloat (s : List Char) : Option ℚ :=
  let neg := s.head? = some '-'
  let t := if neg then s.tail else s
  if ¬ t.all isNumC then none
  else if t.any (fun c => c = '-') then none
  else if 1 < t.count '.' then none
  else if ¬ t.any Char.isDigit then none
  else
    let ip := t.takeWhile (fun c => c ≠ '.')
    let fp := (t.dropWhile (fun c => c ≠ '.')).tail
    let v : ℚ := (natOfDigits ip : ℚ) + (natOfDigits fp : ℚ) / (10 ^ fp.length : ℚ)
    some (if neg then -v else v)

/-- Round a rational to the nearest integer, ties to even (Python `round`). -/
def roundHalfEven (q : ℚ) : ℤ :=
  if q - (⌊q⌋ : ℚ) < 1 / 2 then ⌊q⌋
  else if (1 : ℚ) / 2 < q - (⌊q⌋ : ℚ) then ⌊q⌋ + 1
  else if ⌊q⌋ % 2 = 0 then ⌊q⌋ else ⌊q⌋ + 1

/-- Python `round(x, 3)` on an exact rational. -/
def round3 (q : ℚ) : ℚ := (roundHalfEven (q * 1000) : ℚ) / 1000

/-- Python `round(x, 1)` on an exact rational. -/
def round1 (q : ℚ) : ℚ := (roundHalfEven (q * 10) : ℚ) / 10

/-- Leftmost search for a boolean matcher: `re.search` succeeds iff the
matcher accepts some suffix (i.e. matches at some starting offset). -/
def searchB (m : List Char → Bool) : List Char → Bool
  | [] => m []
  | c :: rest => m (c :: rest) || searchB m rest

/-- Leftmost search for a capturing matcher: the capture at the leftmost
offset at which the matcher succeeds. -/
def searchO (m : List Char → Option (List Char)) : List Char → Option (List Char)
  | [] => m []
  | c :: rest =>
    match m (c :: rest) with
    | some a => some a
    | none => searchO m rest

/-- Drop a literal from the front of the text, or fail. -/
def afterLit (lit text : List Char) : Option (List Char) :=
  if lit.isPrefixOf text then some (text.drop lit.length) else none

/-- Match `KEY: \d+` at the current offset. -/
def matchKeyAt (l : List Char) : Bool :=
  match afterLit (("KEY: ").toList) l with
  | none => false
  | some r => ¬ (r.takeWhile Char.isDigit).isEmpty

/-- Match `VECTOR: X=[-.\d]+ Y=[-.\d]+ Z=[-.\d]+` at the current offset. -/
def matchVectorAt (l : List Char) : Bool :=
  match afterLit (("VECTOR: X=").toList) l with
  | none => false
  | some r1 =>
    ¬ (r1.takeWhile isNumC).isEmpty &&
    match afterLit ((" Y=").toList) (r1.dropWhile isNumC) with
    | none => false
    | some r2 =>
      ¬ (r2.takeWhile isNumC).isEmpty &&
      match afterLit ((" Z=").toList) (r2.dropWhile isNumC) with
      | none => false
      | some r3 => ¬ (r3.takeWhile isNumC).isEmpty

/-- Match `VELOCITY: [-.\d]+` at the current offset; the returned capture is
the numeral part of `group(0)`, which the source recovers via
`group(0).split(": ")[1]` (the numeral cannot contain `": "`). -/
def matchVelocityAt (l : List Char) : Option (List Char) :=
  match afterLit (("VELOCITY: ").toList) l with
  | none => none
  | some r =>
    let run := r.takeWhile isNumC
    if run.isEmpty then none else some run

/-- Match `XS(\d+)` at the current offset, returning `group(1)`. -/
def matchXSAt (l : List Char) : Option (List Char) :=
  match afterLit (("XS").toList) l with
  | none => none
  | some r =>
    let run := r.takeWhile Char.isDigit
    if run.isEmpty then none else some run

/-- Match `Y=([-\d.]+)` at the current offset, returning `group(1)`. -/
def matchYAt (l : List Char) : Option (List Char) :=
  match afterLit (("Y=").toList) l with
  | none => none
  | some r =>
    let run := r.takeWhile isNumC
    if run.isEmpty then none else some run

/-- Match `Z=([-\d.]+)` at the current offset, returning `group(1)`. -/
def matchZAt (l : List Char) : Option (List Char) :=
  match afterLit (("Z=").toList) l with
  | none => none
  | some r =>
    let run := r.takeWhile isNumC
    if run.isEmpty then none else some run

/-- `re.search(r'KEY: \d+', line)` truthiness. -/
def keySearch (line : List Char) : Bool := searchB matchKeyAt line

/-- `re.search(r'VECTOR: X=[-.\d]+ Y=[-.\d]+ Z=[-.\d]+', line)` truthiness. -/
def vectorSearch (line : List Char) : Bool := searchB matchVectorAt line

/-- `re.search(r'VELOCITY: [-.\d]+', line)`, reduced to the numeral of `group(0)`. -/
def velocitySearch (line : List Char) : Option (List Char) := searchO matchVelocityAt line

/-- `re.search(r"XS(\d+)", line)`, reduced to `group(1)`. -/
def xsSearch (line : List Char) : Option (List Char) := searchO matchXSAt line

/-- `re.search(r'Y=([-\d.]+)', line)`, reduced to `group(1)`. -/
def ySearch (line : List Char) : Option (List Char) := searchO matchYAt line

/-- `re.search(r'Z=([-\d.]+)', line)`, reduced to `group(1)`. -/
def zSearch (line : List Char) : Option (List Char) := searchO matchZAt line

/-- Python `sub in line` for a literal substring. -/
def containsSub (sub line : List Char) : Bool :=
  searchB (fun s => sub.isPrefixOf s) line

/-- The pre-filter of `extract_valid_particles`: `"LogBlueprintUserMessages" in line`. -/
def containsLBUM (line : List Char) : Bool :=
  containsSub (("LogBlueprintUserMessages").toList) line

/-- The section delimiter test of `extract_sections`: `"STOP" in line`. -/
def containsSTOP (line : List Char) : Bool :=
  containsSub (("STOP").toList) line

/-- Python exceptions raised by the pipeline, tagged by raise site.
`valueError` is a `float()`/`int()` conversion failure on a malformed
numeral, `attrError` is `.group(...)` on a failed `re.search`, and
`emptyMean` is `int()` applied to the `nan` that `numpy` returns as the mean
of an empty array (in Python the latter is also a `ValueError`, raised inside
`determine_xs`). -/
inductive PyErr where
  | valueError
  | attrError
  | emptyMean
deriving DecidableEq

/-- One parsed particle, the list `[y, z, velocity, xs_value]` built by
`parse_line`: y and z are the captured Y/Z numerals divided by 100, velocity
is the captured velocity numeral divided by 100 and rounded to 3 decimals,
and xs_value is the integer captured from the XS token. -/
structure Record where
  y : ℚ
  z : ℚ
  velocity : ℚ
  xs_value : ℕ
deriving DecidableEq

/-- `extract_vector_components`: re-search `Y=([-\d.]+)` and `Z=([-\d.]+)`
over the whole line (leftmost occurrences, independent of the VECTOR token),
convert each capture with `float()` and divide by 100. -/
def extract_vector_components (line : List Char) : Except PyErr (ℚ × ℚ) :=
  match ySearch line, zSearch line with
  | some ys, some zs =>
    (match pyFloat ys, pyFloat zs with
     | some y, some z => Except.ok (y / 100, z / 100)
     | _, _ => Except.error PyErr.valueError)
  | _, _ => Except.error PyErr.attrError

/-- `extract_velocity`: re-search `VELOCITY: [-.\d]+`, take the numeral of
`group(0)`, convert with `float()`, divide by 100 and round to 3 decimals. -/
def extract_velocity (line : List Char) : Except PyErr ℚ :=
  match velocitySearch line with
  | none => Except.error PyErr.attrError
  | some vs =>
    match pyFloat vs with
    | none => Except.error PyErr.valueError
    | some v => Except.ok (round3 (v / 100))

/-- The gate of `parse_line`: all four `re.search` calls succeed. -/
def hasAllTokens (line : List Char) : Bool :=
  keySearch line && vectorSearch line &&
    (velocitySearch line).isSome && (xsSearch line).isSome

/-- `parse_line`: if the four token searches all succeed, build the record
from `extract_vector_components`, `extract_velocity` and `int(xs_match.group(1))`;
otherwise return `None` (modelled `Except.ok none`).  Conversion failures
inside the matched branch propagate as exceptions. -/
def parse_line (line : List Char) : Except PyErr (Option Record) :=
  if hasAllTokens line then
    match extract_vector_components line with
    | Except.error e => Except.error e
    | Except.ok yz =>
      match extract_velocity line with
      | Except.error e => Except.error e
      | Except.ok v =>
        Except.ok (some ⟨yz.1, yz.2, v, natOfDigits ((xsSearch line).getD [])⟩)
  else Except.ok none

/-- The line comprehension of `extract_valid_particles`:
`[parse_line(line) for line in section if "LogBlueprintUserMessages" in line]`,
with exceptions propagating at the first offending line. -/
def parseLBUM : List (List Char) → Except PyErr (List (Option Record))
  | [] => Except.ok []
  | l :: ls =>
    if containsLBUM l then
      match parse_line l with
      | Except.error e => Except.error e
      | Except.ok p =>
        match parseLBUM ls with
        | Except.error e => Except.error e
        | Except.ok ps => Except.ok (p :: ps)
    else parseLBUM ls

/-- `extract_valid_particles`: run the comprehension, then keep the non-`None`
results (`[particle for particle in valid_particles if particle]`). -/
def extract_valid_particles (sec : List (List Char)) : Except PyErr (List Record) :=
  match parseLBUM sec with
  | Except.error e => Except.error e
  | Except.ok ps => Except.ok (ps.filterMap id)

/-- Applying the parser to every line and keeping the successful parses in
order, stated the way the specification words it, split into the filtering
pass and a plain element-wise parsing pass. -/
def mapParse : List (List Char) → Except PyErr (List (Option Record))
  | [] => Except.ok []
  | l :: ls =>
    match parse_line l, mapParse ls with
    | Except.error e, _ => Except.error e
    | Except.ok _, Except.error e => Except.error e
    | Except.ok p, Except.ok ps => Except.ok (p :: ps)

/-- Specification-style restatement of `extract_valid_particles` (amended
claim C1): parse exactly the lines containing the marker substring, in
order, retaining the successful parses. -/
def evpSpec (sec : List (List Char)) : Except PyErr (List Record) :=
  match mapParse (sec.filter (fun l => containsLBUM l)) with
  | Except.error e => Except.error e
  | Except.ok ps => Except.ok (ps.filterMap id)

/-- The exact mean of the raw XS column, `np.mean(data[:, 3])` idealized over
the rationals. -/
def meanXS (data : List Record) : ℚ :=
  ((data.map (fun r => (r.xs_value : ℚ))).sum) / (data.length : ℚ)

/-- `determine_xs`: truncate the mean of the XS column to an integer
(`int()` truncates toward zero; the XS values are naturals, so the mean is
nonnegative and truncation is the floor) and classify it against the
section-number thresholds.  On an empty record array `np.mean` yields `nan`
and `int(nan)` raises, modelled `Except.error PyErr.emptyMean`. -/
def determine_xs (data : List Record) (section_number : ℕ) : Except PyErr (Option ℕ) :=
  if data.length = 0 then Except.error PyErr.emptyMean
  else
    let xs_value : ℤ := ⌊meanXS data⌋
    Except.ok
      (if xs_value = 1 then some (if section_number < 20 then 11 else 12)
       else if xs_value = 4 then some (if section_number < 40 then 41 else 42)
       else if xs_value = 2 then some (if section_number < 50 then 21 else 22)
       else if xs_value = 3 then some (if section_number < 60 then 31 else 32)
       else none)

/-- Specification-style restatement of the bucket map of claim C3, as a
function of the truncated integer mean t and the 1-based section index. -/
def bucketOfSpec (t : ℤ) (n : ℕ) : Option ℕ :=
  if t = 1 then some (if n < 20 then 11 else 12)
  else if t = 4 then some (if n < 40 then 41 else 42)
  else if t = 2 then some (if n < 50 then 21 else 22)
  else if t = 3 then some (if n < 60 then 31 else 32)
  else none

/-- The keys of `xs_totals`/`xs_counts`, in the dictionary's insertion order. -/
def bucketKeys : List ℕ := [11, 41, 21, 31, 12, 42, 22, 32]

/-- Pointwise update of a tally, modelling `d[k] += v` on a dict. -/
def updTally (f : ℕ → ℕ) (k v : ℕ) : ℕ → ℕ :=
  fun j => if j = k then v else f j

/-- The accumulation loop of `calculate_average_particle_count`: enumerate
sections 1-based, extract valid particles, and for sections with a positive
valid-particle count whose bucket is one of the fixed keys, add the count to
the bucket's total and bump the bucket's denominator. -/
def accumulateXS : List (List (List Char)) → ℕ → (ℕ → ℕ) → (ℕ → ℕ) →
    Except PyErr ((ℕ → ℕ) × (ℕ → ℕ))
  | [], _, tot, cnt => Except.ok (tot, cnt)
  | s :: rest, i, tot, cnt =>
    match extract_valid_particles s with
    | Except.error e => Except.error e
    | Except.ok data =>
      if data.length > 0 then
        match determine_xs data i with
        | Except.error e => Except.error e
        | Except.ok (some k) =>
          if k ∈ bucketKeys then
            accumulateXS rest (i + 1)
              (updTally tot k (tot k + data.length)) (updTally cnt k (cnt k + 1))
          else accumulateXS rest (i + 1) tot cnt
        | Except.ok none => accumulateXS rest (i + 1) tot cnt
      else accumulateXS rest (i + 1) tot cnt

/-- `calculate_average_particle_count`: run the accumulation from the
all-zero tallies, then produce, in key order, `round(total/count, 1)` for
buckets with at least one contributing section and `0` otherwise. -/
def calculate_average_particle_count (sections : List (List (List Char))) :
    Except PyErr (List (ℕ × ℚ)) :=
  match accumulateXS sections 1 (fun _ => 0) (fun _ => 0) with
  | Except.error e => Except.error e
  | Except.ok tc =>
    Except.ok (bucketKeys.map (fun k =>
      (k, if tc.2 k > 0 then round1 ((tc.1 k : ℚ) / (tc.2 k : ℚ)) else 0)))

/-- The per-section contributions (bucket, valid-particle count) of the
sections that contribute at all, in order, with the same exception
behaviour as the accumulation loop. -/
def contribs : List (List (List Char)) → ℕ → Except PyErr (List (ℕ × ℕ))
  | [], _ => Except.ok []
  | s :: rest, i =>
    match extract_valid_particles s with
    | Except.error e => Except.error e
    | Except.ok data =>
      if data.length > 0 then
        match determine_xs data i with
        | Except.error e => Except.error e
        | Except.ok (some k) =>
          if k ∈ bucketKeys then
            match contribs rest (i + 1) with
            | Except.error e => Except.error e
            | Except.ok cs => Except.ok ((k, data.length) :: cs)
          else contribs rest (i + 1)
        | Except.ok none => contribs rest (i + 1)
      else contribs rest (i + 1)

/-- Total valid-particle count over the contributing sections of one bucket. -/
def tallyTotal (cs : List (ℕ × ℕ)) (k : ℕ) : ℕ :=
  ((cs.filter (fun c => c.1 = k)).map (fun c => c.2)).sum

/-- Number of contributing sections of one bucket. -/
def tallyCount (cs : List (ℕ × ℕ)) (k : ℕ) : ℕ :=
  (cs.filter (fun c => c.1 = k)).length

/-- Specification-style restatement of claim C4: the mapping whose keys are
exactly the eight fixed buckets, where each bucket's value is the total
valid-particle count over its contributing sections divided by the number of
contributing sections, rounded to 1 decimal, and 0 when no section
contributed. -/
def calcSpecAverages (sections : List (List (List Char))) :
    Except PyErr (List (ℕ × ℚ)) :=
  match contribs sections 1 with
  | Except.error e => Except.error e
  | Except.ok cs =>
    Except.ok (bucketKeys.map (fun k =>
      (k, if tallyCount cs k > 0
          then round1 ((tallyTotal cs k : ℚ) / (tallyCount cs k : ℚ))
          else 0)))

/-- The loop body of `extract_sections`: a line containing "STOP" closes the
current section (appending it to the output even when empty) and starts a
new one; any other line is appended to the current section; at end of input
the current section is emitted only when non-empty. -/
def extractSectionsAux : List (List Char) → List (List Char) → List (List (List Char))
  | [], cur => if cur.isEmpty then [] else [cur]
  | l :: ls, cur =>
    if containsSTOP l then cur :: extractSectionsAux ls []
    else extractSectionsAux ls (cur ++ [l])

/-- `extract_sections`, applied to the file's lines. -/
def extract_sections (lines : List (List Char)) : List (List (List Char)) :=
  extractSectionsAux lines []

/-- The `xs_limits` dictionary of config.py: x-axis limits per bucket. -/
def xs_limits (k : ℕ) : Option (ℚ × ℚ) :=
  if k = 11 then some (-(11 / 10), 13 / 10)
  else if k = 12 then some (-(11 / 10), 13 / 10)
  else if k = 21 then some (-(5 / 2), 7 / 5)
  else if k = 22 then some (-(5 / 2), 7 / 5)
  else if k = 31 then some (-(5 / 2), 7 / 5)
  else if k = 32 then some (-(5 / 2), 7 / 5)
  else if k = 41 then some (-(7 / 5), 13 / 10)
  else if k = 42 then some (-(7 / 5), 13 / 10)
  else none

/-- `calculate_average_velocity`: mean of the velocity column rounded to 3
decimals, or 0 for an empty array. -/
def calculate_average_velocity (data : List Record) : ℚ :=
  if data.length > 0
  then round3 ((data.map (fun r => r.velocity)).sum / (data.length : ℚ))
  else 0

/-- One row of `data_list`, as `LogFileProcessor.process_section` appends it. -/
structure Row where
  xs : ℕ
  valid_particle_count : ℕ
  avg_particle : ℚ
  sd_velocity : ℚ
  avg_velocity : ℚ
deriving DecidableEq

/-- `LogFileProcessor.process_section` (the report-relevant part): extract the
valid particles; if at least one exists, determine the bucket, look its
x-axis limits up, and on a hit append the row; on a miss (`xs_limits.get`
returns `None`, in particular for an unresolved bucket) print a warning and
skip the section (`Except.ok none`).  `np.std` takes a square root, which is
irrational, so the standard deviation is modelled by the parameter `sdFn`;
none of the verified properties depend on its value.  `avgP` is the
`avg_particles` dictionary computed beforehand (`get` with default 0). -/
def process_section (sdFn : List Record → ℚ) (avgP : ℕ → ℚ)
    (sec : List (List Char)) (section_number : ℕ) : Except PyErr (Option Row) :=
  match extract_valid_particles sec with
  | Except.error e => Except.error e
  | Except.ok data =>
    if data.length > 0 then
      match determine_xs data section_number with
      | Except.error e => Except.error e
      | Except.ok cur =>
        match cur with
        | none => Except.ok none
        | some k =>
          match xs_limits k with
          | none => Except.ok none
          | some _ =>
            Except.ok (some ⟨k, data.length, avgP k, sdFn data,
              calculate_average_velocity data⟩)
    else Except.ok none

/-- The driver loop of `LogFileProcessor.__call__`: process the sections
1-based in order, accumulating the appended rows (`data_list`); an exception
in any section aborts the run. -/
def processAllAux (sdFn : List Record → ℚ) (avgP : ℕ → ℚ) :
    List (List (List Char)) → ℕ → Except PyErr (List Row)
  | [], _ => Except.ok []
  | s :: rest, i =>
    match process_section sdFn avgP s i with
    | Except.error e => Except.error e
    | Except.ok r =>
      match processAllAux sdFn avgP rest (i + 1) with
      | Except.error e => Except.error e
      | Except.ok rs =>
        Except.ok (match r with | some row => row :: rs | none => rs)

/-- The top-level names bound in config.py that `from config import *` makes
available inside get_particle_attributes.py.  A star import exports the
module's public (non-underscore) top-level bindings: the imported helper
modules, the path accessors, and the plain configuration variables.  The
module path variable itself is the underscore name `_file_path`, which a
star import does not export. -/
def configPublicNames : List (List Char) :=
  [("os").toList, ("subprocess").toList, ("plt").toList, ("np").toList,
   ("re").toList, ("pd").toList, ("GridSpec").toList,
   ("LinearSegmentedColormap").toList, ("MultipleLocator").toList,
   ("get_file_path").toList, ("set_file_path").toList,
   ("xs_limits").toList, ("vmax").toList, ("radius").toList,
   ("limit_Data").toList, ("limit").toList,
   ("var1").toList, ("var2").toList, ("var3").toList]

/-- The free variable that `extract_sections` dereferences in
`open(file_path, 'r')`. -/
def fileOpenName : List Char := ("file_path").toList

/-! ## Helper lemmas -/

lemma extractSectionsAux_noSTOP (ls : List (List Char)) :
    ∀ cur, (∀ l ∈ ls, containsSTOP l = false) →
      extractSectionsAux ls cur = if (cur ++ ls).isEmpty then [] else [cur ++ ls] := by
  induction ls with
  | nil => intro cur _; simp [extractSectionsAux]
  | cons l ls ih =>
    intro cur h
    have hl : containsSTOP l = false := h l (by simp)
    have hrest : ∀ x ∈ ls, containsSTOP x = false := fun x hx => h x (by simp [hx])
    rw [extractSectionsAux, hl]
    simp only [Bool.false_eq_true, if_false, ih (cur ++ [l]) hrest, List.append_assoc,
      List.singleton_append, List.isEmpty_eq_true, List.append_eq_nil]

lemma extractSectionsAux_split (pre : List (List Char)) :
    ∀ cur d post, (∀ l ∈ pre, containsSTOP l = false) → containsSTOP d = true →
      extractSectionsAux (pre ++ d :: post) cur = (cur ++ pre) :: extractSectionsAux post [] := by
  induction pre with
  | nil =>
    intro cur d post _ hd
    simp [extractSectionsAux, hd]
  | cons p pre ih =>
    intro cur d post h hd
    have hp : containsSTOP p = false := h p (by simp)
    have hrest : ∀ x ∈ pre, containsSTOP x = false := fun x hx => h x (by simp [hx])
    rw [List.cons_append, extractSectionsAux, hp]
    simp only [Bool.false_eq_true, if_false, ih (cur ++ [p]) d post hrest hd,
      List.append_assoc, List.singleton_append]

lemma parseLBUM_eq_mapParse (s : List (List Char)) :
    parseLBUM s = mapParse (s.filter (fun l => containsLBUM l)) := by
  induction s with
  | nil => rfl
  | cons l ls ih =>
    by_cases h : containsLBUM l
    · rw [parseLBUM, if_pos h, List.filter_cons_of_pos (by simpa using h), mapParse, ← ih]
      cases parse_line l <;> cases parseLBUM ls <;> rfl
    · rw [parseLBUM, if_neg h,
        List.filter_cons_of_neg (by simpa using h), ih]

/-! ## Claim C1 -/

/-- The line of the C1 counterexample: it parses to a full record but does
not contain the `LogBlueprintUserMessages` marker. -/
def lineNoLBUM : List Char :=
  ("KEY: 3 VECTOR: X=0 Y=150 Z=80 VELOCITY: 120 XS1").toList

/-- Claim C1 is false as stated: `lineNoLBUM` parses successfully (to the
record (1.5, 0.8, 1.2, 1)), yet `extract_valid_particles` on the one-line
section made of it returns no record at all, because the source filters the
section on the substring `"LogBlueprintUserMessages"` before parsing. -/
theorem claim_C1_cex :
    parse_line lineNoLBUM = Except.ok (some ⟨3 / 2, 4 / 5, 6 / 5, 1⟩)
    ∧ extract_valid_particles [lineNoLBUM] = Except.ok [] := by
  constructor
  · with_unfolding_all rfl
  · with_unfolding_all rfl

/-- Claim C1 (amended): `extract_valid_particles` applies the line parser to
exactly those lines of the section that contain the substring
`"LogBlueprintUserMessages"`, and returns the records of the lines among
them that parse successfully, in the section's original order. -/
theorem claim_C1_thm : ∀ sec, extract_valid_particles sec = evpSpec sec := by
  intro sec
  unfold extract_valid_particles evpSpec
  rw [parseLBUM_eq_mapParse]

/-! ## Claim C3 -/

/-- Claim C3: on a non-empty record array, `determine_xs` computes the
truncated integer mean t of the raw cross-section values and returns the
bucket given by the spec's map: t=1 gives 11 if the 1-based section index is
below 20 and 12 otherwise; t=4 gives 41/42 at threshold 40; t=2 gives 21/22
at threshold 50; t=3 gives 31/32 at threshold 60; any other t is
unresolved (`none`). -/
theorem claim_C3_thm : ∀ (data : List Record) (n : ℕ), data ≠ [] →
    determine_xs data n = Except.ok (bucketOfSpec ⌊meanXS data⌋ n) := by
  intro data n h
  have hlen : ¬ data.length = 0 := by simpa using h
  rw [determine_xs, if_neg hlen]
  rfl

/-- Witness for C3, at the spec's own example: a record array of raw XS mean
1 in section 25 lands in bucket 12. -/
theorem claim_C3_witness :
    determine_xs [⟨0, 0, 0, 1⟩] 25 = Except.ok (some 12) := by
  rw [claim_C3_thm [⟨0, 0, 0, 1⟩] 25 (by simp)]
  with_unfolding_all rfl

/-! ## Claim C5 -/

/-- Claim C5: `extract_sections` splits on delimiter lines. Empty input
yields no sections; a non-empty delimiter-free log yields exactly one
section with all its lines; and a log `pre ++ [d] ++ post` with `pre`
delimiter-free and `d` a delimiter line yields `pre` as a closed section
(the delimiter line in neither part) followed by the sections of `post` —
in particular a log ending right after a delimiter emits no trailing empty
section, while a non-empty trailing section without a closing delimiter is
still emitted. -/
theorem claim_C5_thm :
    extract_sections [] = []
    ∧ (∀ ls : List (List Char), (∀ l ∈ ls, containsSTOP l = false) → ls ≠ [] →
        extract_sections ls = [ls])
    ∧ (∀ (pre : List (List Char)) (d : List Char) (post : List (List Char)),
        (∀ l ∈ pre, containsSTOP l = false) → containsSTOP d = true →
        extract_sections (pre ++ d :: post) = pre :: extract_sections post) := by
  refine ⟨rfl, ?_, ?_⟩
  · intro ls h hne
    rw [extract_sections, extractSectionsAux_noSTOP ls [] h]
    simp [hne]
  · intro pre d post h hd
    rw [extract_sections, extractSectionsAux_split pre [] d post h hd]
    rfl

/-- Witness for C5: a concrete three-line log with one delimiter line splits
into the pre-delimiter section followed by the sections of the remainder. -/
theorem claim_C5_witness :
    extract_sections [['a'], (("xSTOPx").toList), ['b']]
      = [['a']] :: extract_sections [['b']] :=
  claim_C5_thm.2.2 [['a']] (("xSTOPx").toList) [['b']] (by decide) (by decide)

/-! ## Claim C2 -/

/-- The parsed value of the leftmost `Y=` capture of a line. -/
def yValue (line : List Char) : Option ℚ := (ySearch line).bind pyFloat

/-- The parsed value of the leftmost `Z=` capture of a line. -/
def zValue (line : List Char) : Option ℚ := (zSearch line).bind pyFloat

/-- The parsed value of the velocity capture of a line. -/
def velValue (line : List Char) : Option ℚ := (velocitySearch line).bind pyFloat

/-- The integer captured by the XS token of a line. -/
def xsValue (line : List Char) : Option ℕ := (xsSearch line).map natOfDigits

/-- The line of the C2 counterexample: all four tokens are present but the
velocity capture is the malformed numeral `-`. -/
def lineC2bad : List Char :=
  ("KEY: 9 VECTOR: X=0 Y=150 Z=80 VELOCITY: - XS3").toList

/-- The unit-conversion example line of claim C2. -/
def lineC2ex : List Char :=
  ("KEY: 9 VECTOR: X=0 Y=150 Z=80 VELOCITY: 120 XS3").toList

/-- Claim C2 is false as stated: `lineC2bad` simultaneously contains all four
tokens, yet `parse_line` does not return a record for it — `float()` on the
captured numeral `-` raises, so the outcome is an exception, not a record
(and not the no-match outcome either). -/
theorem claim_C2_cex :
    hasAllTokens lineC2bad = true
    ∧ parse_line lineC2bad = Except.error PyErr.valueError := by
  constructor
  · decide
  · with_unfolding_all rfl

/-- Claim C2 (amended): `parse_line` returns a particle record if and only if
the line simultaneously contains all four tokens and the captured Y, Z and
velocity numerals are well-formed numbers; if any token is absent it returns
the no-match outcome with no partial data; if all four tokens are present
the outcome is never the no-match result — it raises an error exactly when
a captured numeral fails to parse as a number; and when it returns a
record, the record equals (Y-capture/100, Z-capture/100, velocity/100
rounded to 3 decimals, integer XS), so the example line with Y=150, Z=80,
VELOCITY=120 yields y=1.5, z=0.8, velocity=1.2. -/
theorem claim_C2_thm : ∀ line : List Char,
    (hasAllTokens line = false → parse_line line = Except.ok none)
    ∧ (hasAllTokens line = true → parse_line line ≠ Except.ok none)
    ∧ (hasAllTokens line = true →
        ((∃ e, parse_line line = Except.error e) ↔
          (yValue line = none ∨ zValue line = none ∨ velValue line = none)))
    ∧ (∀ r : Record, parse_line line = Except.ok (some r) ↔
        hasAllTokens line = true
        ∧ ∃ qy qz qv k, yValue line = some qy ∧ zValue line = some qz
            ∧ velValue line = some qv ∧ xsValue line = some k
            ∧ r = ⟨qy / 100, qz / 100, round3 (qv / 100), k⟩)
    ∧ parse_line lineC2ex = Except.ok (some ⟨3 / 2, 4 / 5, 6 / 5, 3⟩) := by
  intro line
  by_cases ht : hasAllTokens line
  · have h4 := ht
    rw [hasAllTokens] at h4
    simp only [Bool.and_eq_true, Option.isSome_iff_exists] at h4
    obtain ⟨⟨⟨-, -⟩, ⟨vs, hvs⟩⟩, ⟨ds, hds⟩⟩ := h4
    have main : (parse_line line ≠ Except.ok none)
        ∧ ((∃ e, parse_line line = Except.error e) ↔
            (yValue line = none ∨ zValue line = none ∨ velValue line = none))
        ∧ (∀ r : Record, parse_line line = Except.ok (some r) ↔
            hasAllTokens line = true
            ∧ ∃ qy qz qv k, yValue line = some qy ∧ zValue line = some qz
                ∧ velValue line = some qv ∧ xsValue line = some k
                ∧ r = ⟨qy / 100, qz / 100, round3 (qv / 100), k⟩) := by
      cases hy : ySearch line with
      | none =>
        have hres : parse_line line = Except.error PyErr.attrError := by
          simp [parse_line, ht, extract_vector_components, hy]
        have hyv : yValue line = none := by simp [yValue, hy]
        rw [hres]
        exact ⟨by simp, iff_of_true ⟨_, rfl⟩ (by simp [hyv]),
          fun r => by simp [hyv]⟩
      | some ys =>
        cases hz : zSearch line with
        | none =>
          have hres : parse_line line = Except.error PyErr.attrError := by
            simp [parse_line, ht, extract_vector_components, hy, hz]
          have hzv : zValue line = none := by simp [zValue, hz]
          rw [hres]
          exact ⟨by simp, iff_of_true ⟨_, rfl⟩ (by simp [hzv]),
            fun r => by simp [hzv]⟩
        | some zs =>
          cases hpy : pyFloat ys with
          | none =>
            have hyv : yValue line = none := by simp [yValue, hy, hpy]
            cases hpz : pyFloat zs with
            | none =>
              have hres : parse_line line = Except.error PyErr.valueError := by
                simp [parse_line, ht, extract_vector_components, hy, hz, hpy, hpz]
              rw [hres]
              exact ⟨by simp, iff_of_true ⟨_, rfl⟩ (by simp [hyv]),
                fun r => by simp [hyv]⟩
            | some qz =>
              have hres : parse_line line = Except.error PyErr.valueError := by
                simp [parse_line, ht, extract_vector_components, hy, hz, hpy, hpz]
              rw [hres]
              exact ⟨by simp, iff_of_true ⟨_, rfl⟩ (by simp [hyv]),
                fun r => by simp [hyv]⟩
          | some qy =>
            cases hpz : pyFloat zs with
            | none =>
              have hzv : zValue line = none := by simp [zValue, hz, hpz]
              have hres : parse_line line = Except.error PyErr.valueError := by
                simp [parse_line, ht, extract_vector_components, hy, hz, hpy, hpz]
              rw [hres]
              exact ⟨by simp, iff_of_true ⟨_, rfl⟩ (by simp [hzv]),
                fun r => by simp [hzv]⟩
            | some qz =>
              cases hpv : pyFloat vs with
              | none =>
                have hvv : velValue line = none := by simp [velValue, hvs, hpv]
                have hres : parse_line line = Except.error PyErr.valueError := by
                  simp [parse_line, ht, extract_vector_components, extract_velocity,
                    hy, hz, hpy, hpz, hvs, hpv]
                rw [hres]
                exact ⟨by simp, iff_of_true ⟨_, rfl⟩ (by simp [hvv]),
                  fun r => by simp [hvv]⟩
              | some qv =>
                have hres : parse_line line =
                    Except.ok (some ⟨qy / 100, qz / 100, round3 (qv / 100),
                      natOfDigits ds⟩) := by
                  simp [parse_line, ht, extract_vector_components, extract_velocity,
                    hy, hz, hpy, hpz, hvs, hpv, hds]
                rw [hres]
                refine ⟨by simp, iff_of_false (by simp)
                  (by simp [yValue, zValue, velValue, hy, hz, hpy, hpz, hvs, hpv]), ?_⟩
                intro r
                simp only [Except.ok.injEq, Option.some.injEq]
                constructor
                · rintro rfl
                  exact ⟨ht, qy, qz, qv, natOfDigits ds,
                    by simp [yValue, hy, hpy], by simp [zValue, hz, hpz],
                    by simp [velValue, hvs, hpv], by simp [xsValue, hds], rfl⟩
                · rintro ⟨-, qy', qz', qv', k', hy', hz', hv', hk', rfl⟩
                  simp only [yValue, hy, Option.some_bind, hpy,
                    Option.some.injEq] at hy'
                  simp only [zValue, hz, Option.some_bind, hpz,
                    Option.some.injEq] at hz'
                  simp only [velValue, hvs, Option.some_bind, hpv,
                    Option.some.injEq] at hv'
                  simp [xsValue, hds] at hk'
                  rw [hy', hz', hv', hk']
    exact ⟨fun hf => by simp [hf] at ht, fun _ => main.1, fun _ => main.2.1,
      main.2.2, by with_unfolding_all rfl⟩
  · have ht' : hasAllTokens line = false := by simpa using ht
    have hres : parse_line line = Except.ok none := by simp [parse_line, ht']
    refine ⟨fun _ => hres, fun h2 => by simp [h2] at ht',
      fun h2 => by simp [h2] at ht', ?_, by with_unfolding_all rfl⟩
    intro r
    rw [hres]
    simp [ht']

/-- Witness for C2, applied at a concrete tokenless line: the outcome is the
no-match result. -/
theorem claim_C2_witness :
    parse_line (("no particle here").toList) = Except.ok none :=
  (claim_C2_thm (("no particle here").toList)).1 (by decide)

/-! ## Claim C4 -/

lemma tallyTotal_cons (k' n : ℕ) (cs : List (ℕ × ℕ)) (k : ℕ) :
    tallyTotal ((k', n) :: cs) k = (if k' = k then n else 0) + tallyTotal cs k := by
  by_cases h : k' = k <;> simp [tallyTotal, h]

lemma tallyCount_cons (k' n : ℕ) (cs : List (ℕ × ℕ)) (k : ℕ) :
    tallyCount ((k', n) :: cs) k = (if k' = k then 1 else 0) + tallyCount cs k := by
  by_cases h : k' = k <;> simp [tallyCount, h, Nat.add_comm]

lemma accumulateXS_eq (secs : List (List (List Char))) :
    ∀ i tot cnt, accumulateXS secs i tot cnt =
      (contribs secs i).map (fun cs =>
        (fun k => tot k + tallyTotal cs k, fun k => cnt k + tallyCount cs k)) := by
  induction secs with
  | nil =>
    intro i tot cnt
    simp [accumulateXS, contribs, Except.map, tallyTotal, tallyCount]
  | cons s rest ih =>
    intro i tot cnt
    rw [accumulateXS, contribs]
    cases hevp : extract_valid_particles s with
    | error e => simp [Except.map]
    | ok data =>
      by_cases hlen : data.length > 0
      · simp only [if_pos hlen]
        cases hdet : determine_xs data i with
        | error e => simp [Except.map]
        | ok key =>
          cases key with
          | none => exact ih (i + 1) tot cnt
          | some k =>
            by_cases hk : k ∈ bucketKeys
            · simp only [if_pos hk]
              rw [ih (i + 1) (updTally tot k (tot k + data.length))
                (updTally cnt k (cnt k + 1))]
              cases hc : contribs rest (i + 1) with
              | error e => simp [Except.map]
              | ok cs =>
                simp only [Except.map]
                congr 1
                refine Prod.ext ?_ ?_ <;> funext j <;>
                  simp only [tallyTotal_cons, tallyCount_cons, updTally]
                · by_cases hj : j = k
                  · subst hj; simp [Nat.add_assoc]
                  · have hkj : ¬ k = j := fun hkj => hj hkj.symm
                    simp [hj, hkj]
                · by_cases hj : j = k
                  · subst hj; simp [Nat.add_assoc]
                  · have hkj : ¬ k = j := fun hkj => hj hkj.symm
                    simp [hj, hkj]
            · simp only [if_neg hk]
              exact ih (i + 1) tot cnt
      · simp only [if_neg hlen]
        exact ih (i + 1) tot cnt

/-- The section list of the spec's C4 example: two sections, both of bucket
11 (raw XS mean 1, section indices 1 and 2), with 10 and 20 valid particles. -/
def lineC4 : List Char :=
  ("LogBlueprintUserMessages: KEY: 9 VECTOR: X=0 Y=150 Z=80 VELOCITY: 120 XS1").toList

/-- Two sections of 10 and 20 copies of the valid bucket-11 line. -/
def secsC4 : List (List (List Char)) :=
  [List.replicate 10 lineC4, List.replicate 20 lineC4]

/-- Claim C4: `calculate_average_particle_count` agrees with the
specification-style restatement `calcSpecAverages` (per bucket, the total
valid-particle count over contributing sections divided by the number of
contributing sections, rounded to 1 decimal, 0 when no section contributed;
sections with zero valid particles contribute to neither numerator nor
denominator); its keys are exactly the eight fixed buckets; and on the
spec's example (two bucket-11 sections with 10 and 20 valid particles) the
bucket-11 average is 15.0 while the untouched buckets report 0. -/
theorem claim_C4_thm :
    (∀ sections, calculate_average_particle_count sections = calcSpecAverages sections)
    ∧ (∀ sections avgs,
        calculate_average_particle_count sections = Except.ok avgs →
        avgs.map Prod.fst = bucketKeys)
    ∧ calculate_average_particle_count secsC4 =
        Except.ok [(11, 15), (41, 0), (21, 0), (31, 0), (12, 0), (42, 0), (22, 0), (32, 0)] := by
  have hspec : ∀ sections,
      calculate_average_particle_count sections = calcSpecAverages sections := by
    intro sections
    rw [calculate_average_particle_count, calcSpecAverages, accumulateXS_eq]
    cases hc : contribs sections 1 with
    | error e => simp [Except.map]
    | ok cs => simp [Except.map]
  refine ⟨hspec, ?_, ?_⟩
  · intro sections avgs h
    rw [hspec, calcSpecAverages] at h
    cases hc : contribs sections 1 with
    | error e => rw [hc] at h; exact absurd h (by simp)
    | ok cs =>
      rw [hc] at h
      simp only [Except.ok.injEq] at h
      subst h
      rw [List.map_map]
      show List.map id bucketKeys = bucketKeys
      exact List.map_id _
  · with_unfolding_all rfl

/-- Witness for C4: the key list of the example's result is the fixed bucket
list. -/
theorem claim_C4_witness :
    ([((11 : ℕ), (15 : ℚ)), (41, 0), (21, 0), (31, 0), (12, 0), (42, 0), (22, 0), (32, 0)].map
      Prod.fst) = bucketKeys :=
  claim_C4_thm.2.1 secsC4 _ (by with_unfolding_all rfl)

/-! ## Claim C6 -/

lemma determine_xs_limits (data : List Record) (i k : ℕ)
    (h : determine_xs data i = Except.ok (some k)) : ∃ p, xs_limits k = some p := by
  rw [determine_xs] at h
  by_cases hlen : data.length = 0
  · rw [if_pos hlen] at h
    exact absurd h (by simp)
  · rw [if_neg hlen] at h
    simp only [Except.ok.injEq] at h
    split_ifs at h <;> simp only [Option.some.injEq] at h <;> subst h <;>
      simp [xs_limits]

/-- Claim C6: given the section's valid particles `data`, `process_section`
appends a row if and only if `data` is non-empty and the bucket is
resolvable; a non-empty section with unresolved bucket is skipped (warning
printed, nothing appended); and a section producing no row leaves the
driver loop to continue with the remaining sections unchanged. -/
theorem claim_C6_thm : ∀ (sdFn : List Record → ℚ) (avgP : ℕ → ℚ)
    (sec : List (List Char)) (i : ℕ) (data : List Record),
    extract_valid_particles sec = Except.ok data →
    ((∃ row, process_section sdFn avgP sec i = Except.ok (some row)) ↔
      data ≠ [] ∧ ∃ k, determine_xs data i = Except.ok (some k))
    ∧ (data ≠ [] → determine_xs data i = Except.ok none →
        process_section sdFn avgP sec i = Except.ok none)
    ∧ (∀ rest, process_section sdFn avgP sec i = Except.ok none →
        processAllAux sdFn avgP (sec :: rest) i = processAllAux sdFn avgP rest (i + 1)) := by
  intro sdFn avgP sec i data hevp
  refine ⟨⟨?_, ?_⟩, ?_, ?_⟩
  · rintro ⟨row, hrow⟩
    simp only [process_section, hevp] at hrow
    by_cases hlen : data.length > 0
    · simp only [hlen, if_true] at hrow
      cases hdet : determine_xs data i with
      | error e => rw [hdet] at hrow; simp at hrow
      | ok cur =>
        rw [hdet] at hrow
        cases cur with
        | none => simp at hrow
        | some k => exact ⟨List.length_pos.mp hlen, k, rfl⟩
    · simp only [hlen, if_false] at hrow
      simp at hrow
  · rintro ⟨hne, k, hdet⟩
    have hlen : data.length > 0 := List.length_pos.mpr hne
    obtain ⟨p, hp⟩ := determine_xs_limits data i k hdet
    refine ⟨⟨k, data.length, avgP k, sdFn data, calculate_average_velocity data⟩, ?_⟩
    simp only [process_section, hevp, hlen, if_true, hdet, hp]
  · intro hne hdet
    have hlen : data.length > 0 := List.length_pos.mpr hne
    simp only [process_section, hevp, hlen, if_true, hdet]
  · intro rest hnone
    rw [processAllAux, hnone]
    cases processAllAux sdFn avgP rest (i + 1) <;> rfl

/-- The one-line section of the C6 witness (bucket 11 in section 1). -/
def secC6 : List (List Char) :=
  [("LogBlueprintUserMessages: KEY: 9 VECTOR: X=0 Y=150 Z=80 VELOCITY: 120 XS1").toList]

/-- Witness for C6: the concrete one-particle bucket-11 section does get a
row appended. -/
theorem claim_C6_witness :
    ∃ row, process_section (fun _ => 0) (fun _ => 0) secC6 1 = Except.ok (some row) :=
  ((claim_C6_thm (fun _ => 0) (fun _ => 0) secC6 1 [⟨3 / 2, 4 / 5, 6 / 5, 1⟩]
      (by with_unfolding_all rfl)).1).mpr
    ⟨by simp, 11, by with_unfolding_all rfl⟩

/-! ## Claim C8 -/

/-- The line of claim C8: within a marked line, all four tokens match but
the velocity capture is the malformed numeral `-`. -/
def lineC8 : List Char :=
  ("LogBlueprintUserMessages: KEY: 9 VECTOR: X=0 Y=150 Z=80 VELOCITY: - XS1").toList

/-- Claim C8: a line matching all four token patterns whose captured
velocity numeral is malformed raises an error that is distinct from the
no-match outcome, is never treated as a filtered line, and propagates
through `extract_valid_particles`, `calculate_average_particle_count` and
the driver loop as a fatal error terminating the run. -/
theorem claim_C8_thm :
    hasAllTokens lineC8 = true
    ∧ parse_line lineC8 = Except.error PyErr.valueError
    ∧ parse_line lineC8 ≠ Except.ok none
    ∧ extract_valid_particles [lineC8] = Except.error PyErr.valueError
    ∧ calculate_average_particle_count [[lineC8]] = Except.error PyErr.valueError
    ∧ processAllAux (fun _ => 0) (fun _ => 0) [[lineC8]] 1 = Except.error PyErr.valueError := by
  have hpl : parse_line lineC8 = Except.error PyErr.valueError := by
    with_unfolding_all rfl
  refine ⟨by decide, hpl, ?_, by with_unfolding_all rfl, by with_unfolding_all rfl,
    by with_unfolding_all rfl⟩
  rw [hpl]
  simp

/-! ## Claim C10 -/

lemma evc_no_emptyMean (line : List Char) :
    extract_vector_components line ≠ Except.error PyErr.emptyMean := by
  intro h
  rw [extract_vector_components] at h
  cases hy : ySearch line with
  | none =>
    rw [hy] at h
    cases hz : zSearch line <;> rw [hz] at h <;> simp at h
  | some ys =>
    rw [hy] at h
    cases hz : zSearch line with
    | none => rw [hz] at h; simp at h
    | some zs =>
      rw [hz] at h
      simp at h
      cases hp1 : pyFloat ys <;> rw [hp1] at h <;>
        cases hp2 : pyFloat zs <;> rw [hp2] at h <;> simp at h

lemma ev_no_emptyMean (line : List Char) :
    extract_velocity line ≠ Except.error PyErr.emptyMean := by
  intro h
  rw [extract_velocity] at h
  cases hv : velocitySearch line with
  | none => rw [hv] at h; simp at h
  | some vs =>
    rw [hv] at h
    simp at h
    cases hp : pyFloat vs <;> rw [hp] at h <;> simp at h

lemma parse_line_no_emptyMean (line : List Char) :
    parse_line line ≠ Except.error PyErr.emptyMean := by
  intro h
  rw [parse_line] at h
  by_cases ht : hasAllTokens line
  · rw [if_pos ht] at h
    cases hv : extract_vector_components line with
    | error e =>
      rw [hv] at h
      simp only [Except.error.injEq] at h
      exact evc_no_emptyMean line (h ▸ hv)
    | ok yz =>
      rw [hv] at h
      cases hw : extract_velocity line with
      | error e =>
        rw [hw] at h
        simp only [Except.error.injEq] at h
        exact ev_no_emptyMean line (h ▸ hw)
      | ok v => rw [hw] at h; simp at h
  · rw [if_neg ht] at h
    simp at h

lemma parseLBUM_no_emptyMean : ∀ sec, parseLBUM sec ≠ Except.error PyErr.emptyMean := by
  intro sec
  induction sec with
  | nil => simp [parseLBUM]
  | cons l ls ih =>
    intro h
    rw [parseLBUM] at h
    by_cases hl : containsLBUM l
    · rw [if_pos hl] at h
      cases hpl : parse_line l with
      | error e =>
        rw [hpl] at h
        simp only [Except.error.injEq] at h
        exact parse_line_no_emptyMean l (h ▸ hpl)
      | ok p =>
        rw [hpl] at h
        cases hrec : parseLBUM ls with
        | error e =>
          rw [hrec] at h
          simp only [Except.error.injEq] at h
          exact ih (h ▸ hrec)
        | ok ps => rw [hrec] at h; simp at h
    · rw [if_neg hl] at h
      exact ih h

lemma evp_no_emptyMean (sec : List (List Char)) :
    extract_valid_particles sec ≠ Except.error PyErr.emptyMean := by
  intro h
  rw [extract_valid_particles] at h
  cases hp : parseLBUM sec with
  | error e =>
    rw [hp] at h
    simp only [Except.error.injEq] at h
    exact parseLBUM_no_emptyMean sec (h ▸ hp)
  | ok ps => rw [hp] at h; simp at h

lemma determine_xs_ok (data : List Record) (i : ℕ) (h : data.length > 0) :
    ∃ o, determine_xs data i = Except.ok o := by
  rw [determine_xs, if_neg (by omega)]
  exact ⟨_, rfl⟩

lemma accumulateXS_no_emptyMean :
    ∀ (secs : List (List (List Char))) i tot cnt,
      accumulateXS secs i tot cnt ≠ Except.error PyErr.emptyMean := by
  intro secs
  induction secs with
  | nil => intro i tot cnt h; simp [accumulateXS] at h
  | cons s rest ih =>
    intro i tot cnt h
    rw [accumulateXS] at h
    cases hevp : extract_valid_particles s with
    | error e =>
      simp only [hevp, Except.error.injEq] at h
      exact evp_no_emptyMean s (h ▸ hevp)
    | ok data =>
      simp only [hevp] at h
      by_cases hlen : data.length > 0
      · rw [if_pos hlen] at h
        obtain ⟨o, hdet⟩ := determine_xs_ok data i hlen
        simp only [hdet] at h
        cases o with
        | none => simp at h; exact ih (i + 1) tot cnt h
        | some k =>
          simp at h
          by_cases hk : k ∈ bucketKeys
          · rw [if_pos hk] at h; exact ih _ _ _ h
          · rw [if_neg hk] at h; exact ih _ _ _ h
      · rw [if_neg hlen] at h; exact ih _ _ _ h

lemma process_section_no_emptyMean (sdFn : List Record → ℚ) (avgP : ℕ → ℚ)
    (sec : List (List Char)) (i : ℕ) :
    process_section sdFn avgP sec i ≠ Except.error PyErr.emptyMean := by
  intro h
  rw [process_section] at h
  cases hevp : extract_valid_particles sec with
  | error e =>
    simp only [hevp, Except.error.injEq] at h
    exact evp_no_emptyMean sec (h ▸ hevp)
  | ok data =>
    simp only [hevp] at h
    by_cases hlen : data.length > 0
    · rw [if_pos hlen] at h
      obtain ⟨o, hdet⟩ := determine_xs_ok data i hlen
      simp only [hdet] at h
      cases o with
      | none => simp at h
      | some k =>
        simp at h
        cases hxl : xs_limits k <;> rw [hxl] at h <;> simp at h
    · rw [if_neg hlen] at h; simp at h

/-- Claim C10: `determine_xs` raises on an empty record array (`int(nan)`)
rather than returning unresolved, and this error branch is unreachable in
the pipeline: neither `calculate_average_particle_count` nor
`process_section` (nor the driver loop over all sections) can produce it,
because each caller guards the call with a positive valid-particle count. -/
theorem claim_C10_thm :
    (∀ n, determine_xs [] n = Except.error PyErr.emptyMean)
    ∧ (∀ sections, calculate_average_particle_count sections ≠ Except.error PyErr.emptyMean)
    ∧ (∀ (sdFn : List Record → ℚ) (avgP : ℕ → ℚ) sec i,
        process_section sdFn avgP sec i ≠ Except.error PyErr.emptyMean)
    ∧ (∀ (sdFn : List Record → ℚ) (avgP : ℕ → ℚ) secs i,
        processAllAux sdFn avgP secs i ≠ Except.error PyErr.emptyMean) := by
  refine ⟨fun n => rfl, ?_, process_section_no_emptyMean, ?_⟩
  · intro sections h
    rw [calculate_average_particle_count] at h
    cases hacc : accumulateXS sections 1 (fun _ => 0) (fun _ => 0) with
    | error e =>
      rw [hacc] at h
      simp only [Except.error.injEq] at h
      exact accumulateXS_no_emptyMean sections 1 _ _ (h ▸ hacc)
    | ok tc => rw [hacc] at h; simp at h
  · intro sdFn avgP secs
    induction secs with
    | nil => intro i h; simp [processAllAux] at h
    | cons s rest ih =>
      intro i h
      rw [processAllAux] at h
      cases hps : process_section sdFn avgP s i with
      | error e =>
        rw [hps] at h
        simp only [Except.error.injEq] at h
        exact process_section_no_emptyMean sdFn avgP s i (h ▸ hps)
      | ok r =>
        rw [hps] at h
        cases hrec : processAllAux sdFn avgP rest (i + 1) with
        | error e =>
          rw [hrec] at h
          simp only [Except.error.injEq] at h
          exact ih (i + 1) (h ▸ hrec)
        | ok rs => rw [hrec] at h; simp at h

/-! ## Claim C9 -/

/-- The top-level names bound in config.py, in order: the imported modules
and classes, the module-private path variable, the two path accessors, and
the plain configuration variables. -/
def configTopLevelNames : List (List Char) :=
  [("os").toList, ("subprocess").toList, ("plt").toList, ("np").toList,
   ("re").toList, ("pd").toList, ("GridSpec").toList,
   ("LinearSegmentedColormap").toList, ("MultipleLocator").toList,
   ("_file_path").toList,
   ("get_file_path").toList, ("set_file_path").toList,
   ("xs_limits").toList, ("vmax").toList, ("radius").toList,
   ("limit_Data").toList, ("limit").toList,
   ("var1").toList, ("var2").toList, ("var3").toList]

/-- The names a `from module import *` exports when the module defines no
`__all__`: the top-level names that do not start with an underscore. -/
def starExports (names : List (List Char)) : List (List Char) :=
  names.filter (fun n => ¬ (("_").toList).isPrefixOf n)

/-- Claim C9 names behaviour the code cannot exhibit: `extract_sections`
opens `file_path`, but `from config import *` binds exactly the names of
`starExports configTopLevelNames` in get_particle_attributes.py, and
neither `file_path` nor the actual path variable `_file_path` is among
them, so the call raises `NameError` instead of reading the default or the
overridden file (and the CLI's `set_file_path` rebinds `config._file_path`,
which `extract_sections` never consults). -/
theorem claim_C9_bug :
    configPublicNames = starExports configTopLevelNames
    ∧ fileOpenName ∉ configPublicNames
    ∧ ("_file_path").toList ∈ configTopLevelNames
    ∧ ("_file_path").toList ∉ starExports configTopLevelNames := by
  refine ⟨by decide, by decide, by decide, by decide⟩

/-- Witness for C1 (amended), at a concrete one-line section. -/
theorem claim_C1_witness :
    extract_valid_particles [lineNoLBUM] = evpSpec [lineNoLBUM] :=
  claim_C1_thm [lineNoLBUM]

/-- Witness for C10, at a concrete section index: the empty record array
makes `determine_xs` raise. -/
theorem claim_C10_witness :
    determine_xs [] 3 = Except.error PyErr.emptyMean :=
  claim_C10_thm.1 3
